import Mathlib

/-!
Shallow embedding of the fetch/cache coordination core of the crypto tracker
(`src/main.py`) and proofs about it.

The program is a Qt application.  The parts relevant here are:
  * `CryptoTracker.start_chart_fetch` (main.py 405-424): per-day chart cache
    lookup keyed by `(coin_id, days, utc-date)`; on a miss it unconditionally
    starts a new `FetchThread` and appends it to `self.threads`.
  * `CryptoTracker.on_chart_fetched` (main.py 426-448): validates a non-empty
    raw OHLC payload, builds a DataFrame in payload order, writes the chart
    cache under `(coin_id, days, utc-date-at-completion)`, resolves the coin
    name by scanning table items for the stored coin id, and draws.
  * `CryptoTracker.on_table_cell_clicked` (main.py 395-403): maps a clicked
    row to the coin id stored in the row item's `UserRole` data.
  * `CryptoTracker.on_fetch_error` (main.py 257-259): one message box plus a
    status-label update; touches no table rows and no caches.
  * `FetchThread.run` (main.py 58-65): emits exactly one signal, `finished`
    on success or `error` on any exception.
  * `IconFetcher.run` (main.py 76-90): per-coin icon fetch; any failure is
    swallowed by `continue` and the loop moves on to the next coin.
  * `CryptoTracker.change_refresh_interval` (main.py 204-206):
    `REFRESH_OPTIONS.get(label, 60_000)`.

Modelling conventions: the ambient UTC date (`datetime.now(timezone.utc).date()`)
is passed as an explicit `Nat` argument at each call site that reads the clock;
Python dicts become association lists with first-match lookup and prepend
insert (which has the same lookup semantics as overwrite); a started
`FetchThread` is recorded by its tag in the `threads` list, mirroring
`self.threads.append(th)`; prices are carried as integers since no claim
depends on price arithmetic.
-/

/-- One raw OHLC record `[timestamp, open, high, low, close]` as returned by
the provider and as held (in payload order) by the DataFrame that
`on_chart_fetched` builds (main.py 432-434).  Timestamps are epoch
milliseconds. -/
structure OhlcRow where
  timestamp : Nat
  opn : Int
  high : Int
  low : Int
  close : Int
deriving DecidableEq, Repr

/-- Chart-cache key `(coin_id, days, date)` (main.py 409/435); the date is the
UTC calendar day encoded as a day number. -/
abbrev ChartKey := String × Nat × Nat

/-- The `self.chart_cache` dict (main.py 112), as an association list. -/
abbrev ChartCache := List (ChartKey × List OhlcRow)

/-- First-match lookup, the semantics of `key in dict` / `dict[key]`. -/
def cacheLookup : ChartCache → ChartKey → Option (List OhlcRow)
  | [], _ => none
  | e :: rest, k => if e.1 = k then some e.2 else cacheLookup rest k

/-- Dict assignment `self.chart_cache[key] = df` (main.py 436): prepend, so
that `cacheLookup` sees the new binding first (overwrite semantics). -/
def cacheInsert (cache : ChartCache) (k : ChartKey) (v : List OhlcRow) : ChartCache :=
  (k, v) :: cache

/-- The tag `f"chart:{coin_id}:{days}"` given to a chart `FetchThread`
(main.py 418). -/
def chartTag (coin_id : String) (days : Nat) : String :=
  "chart:" ++ coin_id ++ ":" ++ toString days

/-- What `start_chart_fetch` does after its cache check: either draw the
cached DataFrame at once (main.py 410-413) or start a background fetch
(main.py 415-424). -/
inductive ChartAction where
  | drawCached (df : List OhlcRow)
  | fetchStarted (tag : String)
deriving DecidableEq, Repr

/-- `CryptoTracker.start_chart_fetch` (main.py 405-424).  `today` is
`datetime.now(timezone.utc).date()` read at call time (main.py 408).
Returns the updated `self.threads` list together with the action taken:
a cache hit draws immediately and starts nothing; a miss appends a new
fetch thread for the tag `chart:coin_id:days` unconditionally — the code
keeps no in-flight table and never consults `self.threads` before starting
a thread. -/
def CryptoTracker.start_chart_fetch (chart_cache : ChartCache) (threads : List String)
    (coin_id : String) (days today : Nat) : List String × ChartAction :=
  match cacheLookup chart_cache (coin_id, days, today) with
  | some df => (threads, ChartAction.drawCached df)
  | none => (threads ++ [chartTag coin_id days], ChartAction.fetchStarted (chartTag coin_id days))

/-- One coin record of the markets payload, restricted to the fields the
embedded functions read: `coin["id"]`, `coin["name"]`, `coin.get("symbol","")`
(main.py 271-273) and `coin.get("image")` (main.py 79). -/
structure Coin where
  id : String
  name : String
  symbol : String
  image : Option String
deriving DecidableEq, Repr

/-- The data `populate_table` stores in a row's column-0 item: the visible
text `coin["name"]`, the coin id at `Qt.UserRole`, and the symbol at
`Qt.UserRole + 1` (main.py 271-274). -/
structure TableRow where
  coin_id : String
  name : String
  symbol : String
deriving DecidableEq, Repr

/-- `CryptoTracker.populate_table` (main.py 264-321), projected to the
identity-carrying data each row keeps: one row per coin, in payload order,
holding the coin id and name stored with the item. -/
def CryptoTracker.populate_table (data : List Coin) : List TableRow :=
  data.map fun coin => { coin_id := coin.id, name := coin.name, symbol := coin.symbol }

/-- The coin-name resolution loop inside `on_chart_fetched` (main.py 439-444):
scan rows in order, take the text of the first item whose `UserRole` data
equals the coin id, defaulting to the coin id itself. -/
def CryptoTracker.resolve_coin_name : List TableRow → String → String
  | [], coin_id => coin_id
  | row :: rest, coin_id =>
    if row.coin_id = coin_id then row.name else CryptoTracker.resolve_coin_name rest coin_id

/-- Result of `CryptoTracker.on_chart_fetched`: the chart cache afterwards,
the `(df, coin_name, days)` argument passed to `draw_candlestick` when a
chart was drawn, and the message shown by `QMessageBox.critical` when the
handler failed. -/
structure ChartFetchOutcome where
  cache : ChartCache
  drawn : Option (List OhlcRow × String × Nat)
  errorMsg : Option String
deriving DecidableEq, Repr

/-- `CryptoTracker.on_chart_fetched` (main.py 426-448).  `coin_id` and `days`
are the values parsed back out of the thread's tag by `on_fetch_finished`
(main.py 249-255); `completionDate` is `datetime.now(timezone.utc).date()`
read when the handler runs (main.py 435).  An empty payload raises
`ValueError("No OHLC data returned")`, caught by the surrounding `except`
which shows the message and leaves the cache untouched.  Otherwise the
DataFrame keeps the raw records exactly in payload order (the code neither
sorts nor deduplicates), the cache is written under
`(coin_id, days, completionDate)`, and the chart is drawn with the name
resolved by coin id. -/
def CryptoTracker.on_chart_fetched (chart_cache : ChartCache) (table : List TableRow)
    (raw : List OhlcRow) (coin_id : String) (days completionDate : Nat) : ChartFetchOutcome :=
  if raw = [] then
    { cache := chart_cache, drawn := none, errorMsg := some "No OHLC data returned" }
  else
    let df := raw
    let key : ChartKey := (coin_id, days, completionDate)
    { cache := cacheInsert chart_cache key df,
      drawn := some (df, CryptoTracker.resolve_coin_name table coin_id, days),
      errorMsg := none }

/-- `CryptoTracker.on_table_cell_clicked` (main.py 395-403).  `days` is
`int(self.range_dropdown.currentText())`.  Returns the
`(coin_id, coin_name, days)` triple passed on to `start_chart_fetch`, or
`none` when the row has no item (`if not item: return`). -/
def CryptoTracker.on_table_cell_clicked (table : List TableRow) (row _col days : Nat) :
    Option (String × String × Nat) :=
  match table[row]? with
  | none => none
  | some item => some (item.coin_id, item.name, days)

/-- The tracker state touched by the error and icon handlers: the rendered
table rows, the two caches (main.py 112-113), the status-label text and the
list of `QMessageBox.critical` notifications shown so far. -/
structure AppState where
  table : List TableRow
  chart_cache : ChartCache
  icon_cache : List (String × List Nat)
  status : String
  notifications : List String
deriving DecidableEq, Repr

/-- `CryptoTracker.on_fetch_error` (main.py 257-259): show one critical
message box with the error text and set the status label; nothing else is
touched. -/
def CryptoTracker.on_fetch_error (s : AppState) (msg : String) : AppState :=
  { s with notifications := s.notifications ++ [msg], status := "Fetch error" }

/-- The two signals a `FetchThread` can emit (main.py 49-50). -/
inductive FetchEvent (α : Type) where
  | finished (data : α) (tag : String)
  | fetchError (msg : String)
deriving DecidableEq, Repr

/-- `FetchThread.run` (main.py 58-65): the whole body is one `try`; on
success exactly one `finished` signal is emitted, and any exception leads to
exactly one `error` signal.  The network outcome is passed in as an
`Except`. -/
def FetchThread.run {α : Type} (result : Except String α) (tag : String) : List (FetchEvent α) :=
  match result with
  | Except.ok data => [FetchEvent.finished data tag]
  | Except.error e => [FetchEvent.fetchError e]

/-- `IconFetcher.run` (main.py 76-90).  `fetch url` is the outcome of
`requests.get(url, timeout=10)` plus `raise_for_status`: `some bytes` on
success, `none` when an exception was raised (which the code swallows with
`continue`).  Coins whose `id` or `image` is missing or empty (Python-falsy)
are skipped.  The result is the list of `icon_loaded` emissions in order. -/
def IconFetcher.run (fetch : String → Option (List Nat)) : List Coin → List (String × List Nat)
  | [] => []
  | coin :: rest =>
    if coin.id.isEmpty then IconFetcher.run fetch rest
    else
      match coin.image with
      | none => IconFetcher.run fetch rest
      | some url =>
        if url.isEmpty then IconFetcher.run fetch rest
        else
          match fetch url with
          | some bytes => (coin.id, bytes) :: IconFetcher.run fetch rest
          | none => IconFetcher.run fetch rest

/-- `CryptoTracker.on_icon_loaded` (main.py 383-390): a falsy (null) pixmap
is ignored; otherwise the icon cache is updated and the card label repainted.
The pixmap is modelled by its bytes, empty meaning null. -/
def CryptoTracker.on_icon_loaded (s : AppState) (coin_id : String) (pix : List Nat) : AppState :=
  if pix.isEmpty then s
  else { s with icon_cache := (coin_id, pix) :: s.icon_cache }

/-- `REFRESH_OPTIONS` (main.py 42). -/
def REFRESH_OPTIONS : List (String × Nat) :=
  [("30s", 30000), ("1m", 60000), ("5m", 300000), ("10m", 600000)]

/-- Python `dict.get(key, default)` over an association list. -/
def dictGetD : List (String × Nat) → String → Nat → Nat
  | [], _, dflt => dflt
  | e :: rest, k, dflt => if e.1 = k then e.2 else dictGetD rest k dflt

/-- `CryptoTracker.change_refresh_interval` (main.py 204-206): the new timer
interval is `REFRESH_OPTIONS.get(label, 60_000)`. -/
def CryptoTracker.change_refresh_interval (label : String) : Nat :=
  dictGetD REFRESH_OPTIONS label 60000

/-- Strict ascending order of timestamps with no duplicates, the shape the
spec asserts for `OhlcSeries`. -/
def sortedNoDup : List OhlcRow → Bool
  | [] => true
  | [_] => true
  | a :: b :: rest => a.timestamp < b.timestamp && sortedNoDup (b :: rest)

/-! Helper lemmas about the cache association list. -/

theorem cacheLookup_insert_self (cache : ChartCache) (k : ChartKey) (v : List OhlcRow) :
    cacheLookup (cacheInsert cache k v) k = some v := by
  simp [cacheInsert, cacheLookup]

theorem cacheLookup_insert_ne (cache : ChartCache) (k1 k2 : ChartKey) (v : List OhlcRow)
    (h : k1 ≠ k2) :
    cacheLookup (cacheInsert cache k1 v) k2 = cacheLookup cache k2 := by
  simp [cacheInsert, cacheLookup, h]

/-- C3: a chart-cache hit for `(coin_id, days, today)` makes
`start_chart_fetch` draw the cached DataFrame immediately and start no fetch
thread; in particular, after a successful completion wrote the cache, a
second identical request on the same UTC day draws from cache with zero
additional provider calls. -/
theorem c3_cache_hit_renders_without_fetch (cache : ChartCache) (table : List TableRow)
    (threads : List String) (raw : List OhlcRow) (cid : String) (days d : Nat)
    (hraw : raw ≠ []) :
    (∀ df, cacheLookup cache (cid, days, d) = some df →
      CryptoTracker.start_chart_fetch cache threads cid days d
        = (threads, ChartAction.drawCached df)) ∧
    CryptoTracker.start_chart_fetch
        (CryptoTracker.on_chart_fetched cache table raw cid days d).cache threads cid days d
      = (threads, ChartAction.drawCached raw) := by
  constructor
  · intro df hdf
    simp [CryptoTracker.start_chart_fetch, hdf]
  · simp [CryptoTracker.on_chart_fetched, hraw, CryptoTracker.start_chart_fetch,
      cacheLookup_insert_self]

/-- C3 witness: concrete instantiation of `c3_cache_hit_renders_without_fetch`. -/
theorem c3_witness :
    (([⟨1, 1, 2, 0, 1⟩] : List OhlcRow) ≠ []) ∧
    ((∀ df, cacheLookup [] ("bitcoin", 7, 0) = some df →
      CryptoTracker.start_chart_fetch [] [] "bitcoin" 7 0
        = ([], ChartAction.drawCached df)) ∧
    CryptoTracker.start_chart_fetch
        (CryptoTracker.on_chart_fetched [] [] [⟨1, 1, 2, 0, 1⟩] "bitcoin" 7 0).cache
        [] "bitcoin" 7 0
      = ([], ChartAction.drawCached [⟨1, 1, 2, 0, 1⟩])) :=
  ⟨by decide, c3_cache_hit_renders_without_fetch [] [] [] [⟨1, 1, 2, 0, 1⟩] "bitcoin" 7 0
    (by decide)⟩

/-- C4: an OHLC entry cached under UTC day `d1` is invisible to a request on a
different day `d2`: the lookup key embeds the current date, so the request
misses and starts a fresh fetch, with no eviction step involved. -/
theorem c4_day_rollover_invalidates (base : ChartCache) (threads : List String)
    (cid : String) (days d1 d2 : Nat) (df : List OhlcRow)
    (hne : d1 ≠ d2) (hmiss : cacheLookup base (cid, days, d2) = none) :
    cacheLookup (cacheInsert base (cid, days, d1) df) (cid, days, d2) = none ∧
    CryptoTracker.start_chart_fetch (cacheInsert base (cid, days, d1) df) threads cid days d2
      = (threads ++ [chartTag cid days], ChartAction.fetchStarted (chartTag cid days)) := by
  have hk : ((cid, days, d1) : ChartKey) ≠ (cid, days, d2) :=
    fun h => hne (congrArg (fun k : ChartKey => k.2.2) h)
  have h1 : cacheLookup (cacheInsert base (cid, days, d1) df) (cid, days, d2) = none := by
    rw [cacheLookup_insert_ne base _ _ df hk, hmiss]
  exact ⟨h1, by simp [CryptoTracker.start_chart_fetch, h1]⟩

/-- C4 witness: concrete instantiation of `c4_day_rollover_invalidates`. -/
theorem c4_witness :
    ((0 : Nat) ≠ 1) ∧ (cacheLookup [] ("bitcoin", 7, 1) = none) ∧
    (cacheLookup (cacheInsert [] ("bitcoin", 7, 0) [⟨1, 1, 2, 0, 1⟩]) ("bitcoin", 7, 1) = none ∧
    CryptoTracker.start_chart_fetch (cacheInsert [] ("bitcoin", 7, 0) [⟨1, 1, 2, 0, 1⟩])
        [] "bitcoin" 7 1
      = ([chartTag "bitcoin" 7], ChartAction.fetchStarted (chartTag "bitcoin" 7))) :=
  ⟨by decide, by decide,
    c4_day_rollover_invalidates [] [] "bitcoin" 7 0 1 [⟨1, 1, 2, 0, 1⟩] (by decide) (by decide)⟩

/-- C6: an empty OHLC payload makes `on_chart_fetched` report the visible
error `"No OHLC data returned"`, draw nothing and leave the chart cache
exactly as it was; consequently an identical request afterwards (whose key
was not cached before) misses the cache and starts the fetch again. -/
theorem c6_empty_payload_reports_and_retries (cache : ChartCache) (threads : List String)
    (table : List TableRow) (cid : String) (days d : Nat)
    (hmiss : cacheLookup cache (cid, days, d) = none) :
    (CryptoTracker.on_chart_fetched cache table [] cid days d).errorMsg
        = some "No OHLC data returned" ∧
    (CryptoTracker.on_chart_fetched cache table [] cid days d).cache = cache ∧
    (CryptoTracker.on_chart_fetched cache table [] cid days d).drawn = none ∧
    CryptoTracker.start_chart_fetch
        (CryptoTracker.on_chart_fetched cache table [] cid days d).cache threads cid days d
      = (threads ++ [chartTag cid days], ChartAction.fetchStarted (chartTag cid days)) := by
  refine ⟨by simp [CryptoTracker.on_chart_fetched], by simp [CryptoTracker.on_chart_fetched],
    by simp [CryptoTracker.on_chart_fetched], ?_⟩
  simp [CryptoTracker.on_chart_fetched, CryptoTracker.start_chart_fetch, hmiss]

/-- C6 witness: concrete instantiation of `c6_empty_payload_reports_and_retries`. -/
theorem c6_witness :
    (cacheLookup [] ("bitcoin", 7, 0) = none) ∧
    ((CryptoTracker.on_chart_fetched [] [] [] "bitcoin" 7 0).errorMsg
        = some "No OHLC data returned" ∧
    (CryptoTracker.on_chart_fetched [] [] [] "bitcoin" 7 0).cache = [] ∧
    (CryptoTracker.on_chart_fetched [] [] [] "bitcoin" 7 0).drawn = none ∧
    CryptoTracker.start_chart_fetch
        (CryptoTracker.on_chart_fetched [] [] [] "bitcoin" 7 0).cache [] "bitcoin" 7 0
      = ([chartTag "bitcoin" 7], ChartAction.fetchStarted (chartTag "bitcoin" 7))) :=
  ⟨by decide, c6_empty_payload_reports_and_retries [] [] [] "bitcoin" 7 0 (by decide)⟩

/-- C8: a failing snapshot fetch leaves the rendered table rows and both
caches exactly as they were, adds exactly one user-visible notification, and
sets only the status text; the worker (`FetchThread.run`) emits exactly one
`error` signal per failure, so `on_fetch_error` runs once per failed fetch. -/
theorem c8_snapshot_failure_preserves_state (s : AppState) (msg e tag : String) :
    (CryptoTracker.on_fetch_error s msg).table = s.table ∧
    (CryptoTracker.on_fetch_error s msg).chart_cache = s.chart_cache ∧
    (CryptoTracker.on_fetch_error s msg).icon_cache = s.icon_cache ∧
    (CryptoTracker.on_fetch_error s msg).notifications = s.notifications ++ [msg] ∧
    (FetchThread.run (Except.error e) tag : List (FetchEvent (List Coin)))
      = [FetchEvent.fetchError e] :=
  ⟨rfl, rfl, rfl, rfl, rfl⟩

/-- C10: every label outside `{30s, 1m, 5m, 10m}` falls back to the 60000 ms
interval, and each recognized label maps to its advertised value; the lookup
is total, so changing the interval never throws. -/
theorem c10_refresh_interval_fallback (label : String)
    (h : label ≠ "30s" ∧ label ≠ "1m" ∧ label ≠ "5m" ∧ label ≠ "10m") :
    CryptoTracker.change_refresh_interval label = 60000 ∧
    CryptoTracker.change_refresh_interval "30s" = 30000 ∧
    CryptoTracker.change_refresh_interval "1m" = 60000 ∧
    CryptoTracker.change_refresh_interval "5m" = 300000 ∧
    CryptoTracker.change_refresh_interval "10m" = 600000 := by
  obtain ⟨h1, h2, h3, h4⟩ := h
  refine ⟨?_, by decide, by decide, by decide, by decide⟩
  have n1 : ¬(("30s" : String) = label) := fun e => h1 e.symm
  have n2 : ¬(("1m" : String) = label) := fun e => h2 e.symm
  have n3 : ¬(("5m" : String) = label) := fun e => h3 e.symm
  have n4 : ¬(("10m" : String) = label) := fun e => h4 e.symm
  simp [CryptoTracker.change_refresh_interval, REFRESH_OPTIONS, dictGetD, n1, n2, n3, n4]

/-- C10 witness: concrete instantiation of `c10_refresh_interval_fallback`
at the unrecognized label "2m". -/
theorem c10_witness :
    (("2m" : String) ≠ "30s" ∧ ("2m" : String) ≠ "1m" ∧ ("2m" : String) ≠ "5m" ∧
      ("2m" : String) ≠ "10m") ∧
    (CryptoTracker.change_refresh_interval "2m" = 60000 ∧
    CryptoTracker.change_refresh_interval "30s" = 30000 ∧
    CryptoTracker.change_refresh_interval "1m" = 60000 ∧
    CryptoTracker.change_refresh_interval "5m" = 300000 ∧
    CryptoTracker.change_refresh_interval "10m" = 600000) :=
  ⟨by decide, c10_refresh_interval_fallback "2m" (by decide)⟩

/-- C1 counterexample: two identical chart requests issued before the first
completes (the cache is still empty in between, since only `on_chart_fetched`
writes it) each start their own underlying fetch: after the second submit two
fetch threads with the same key's tag are in flight, refuting "no second
underlying fetch is started". -/
theorem c1_counterexample_duplicate_fetch :
    (CryptoTracker.start_chart_fetch [] [] "bitcoin" 7 0).2
      = ChartAction.fetchStarted (chartTag "bitcoin" 7) ∧
    CryptoTracker.start_chart_fetch [] (CryptoTracker.start_chart_fetch [] [] "bitcoin" 7 0).1
        "bitcoin" 7 0
      = ([chartTag "bitcoin" 7, chartTag "bitcoin" 7],
          ChartAction.fetchStarted (chartTag "bitcoin" 7)) := by
  decide

/-- C1 amended: the code keeps no in-flight table, so every chart request
that misses the cache starts its own fetch thread — a second identical
request before the first completes starts a second underlying fetch;
duplicate suppression begins only once a completion has written the cache,
after which an identical same-day request draws from cache and starts no
fetch. -/
theorem c1_amended_no_inflight_dedup (cache : ChartCache) (threads : List String)
    (table : List TableRow) (raw : List OhlcRow) (cid : String) (days today : Nat)
    (hmiss : cacheLookup cache (cid, days, today) = none) (hraw : raw ≠ []) :
    CryptoTracker.start_chart_fetch cache threads cid days today
      = (threads ++ [chartTag cid days], ChartAction.fetchStarted (chartTag cid days)) ∧
    CryptoTracker.start_chart_fetch cache (threads ++ [chartTag cid days]) cid days today
      = (threads ++ [chartTag cid days, chartTag cid days],
          ChartAction.fetchStarted (chartTag cid days)) ∧
    CryptoTracker.start_chart_fetch
        (CryptoTracker.on_chart_fetched cache table raw cid days today).cache threads cid days today
      = (threads, ChartAction.drawCached raw) := by
  refine ⟨by simp [CryptoTracker.start_chart_fetch, hmiss], ?_, ?_⟩
  · simp [CryptoTracker.start_chart_fetch, hmiss]
  · simp [CryptoTracker.on_chart_fetched, hraw, CryptoTracker.start_chart_fetch,
      cacheLookup_insert_self]

/-- C1 witness: concrete instantiation of `c1_amended_no_inflight_dedup`. -/
theorem c1_witness :
    (cacheLookup [] ("bitcoin", 7, 0) = none) ∧ (([⟨1, 1, 2, 0, 1⟩] : List OhlcRow) ≠ []) ∧
    (CryptoTracker.start_chart_fetch [] [] "bitcoin" 7 0
      = ([chartTag "bitcoin" 7], ChartAction.fetchStarted (chartTag "bitcoin" 7)) ∧
    CryptoTracker.start_chart_fetch [] [chartTag "bitcoin" 7] "bitcoin" 7 0
      = ([chartTag "bitcoin" 7, chartTag "bitcoin" 7],
          ChartAction.fetchStarted (chartTag "bitcoin" 7)) ∧
    CryptoTracker.start_chart_fetch
        (CryptoTracker.on_chart_fetched [] [] [⟨1, 1, 2, 0, 1⟩] "bitcoin" 7 0).cache
        [] "bitcoin" 7 0
      = ([], ChartAction.drawCached [⟨1, 1, 2, 0, 1⟩])) := by
  refine ⟨by decide, by decide, ?_⟩
  have h := c1_amended_no_inflight_dedup [] [] [] [⟨1, 1, 2, 0, 1⟩] "bitcoin" 7 0
    (by decide) (by decide)
  simpa using h

/-- C2 counterexample: a request issued on UTC day 0 computes key
`("bitcoin", 7, 0)` and starts a fetch; when the fetch completes on day 1
the handler recomputes the date, so the cache write lands under
`("bitcoin", 7, 1)` and the request-time key remains unwritten — the
write-time date is recomputed at completion, not fixed at request time. -/
theorem c2_counterexample_completion_date :
    CryptoTracker.start_chart_fetch [] [] "bitcoin" 7 0
      = ([chartTag "bitcoin" 7], ChartAction.fetchStarted (chartTag "bitcoin" 7)) ∧
    cacheLookup (CryptoTracker.on_chart_fetched [] [] [⟨1, 1, 2, 0, 1⟩] "bitcoin" 7 1).cache
        ("bitcoin", 7, 1) = some [⟨1, 1, 2, 0, 1⟩] ∧
    cacheLookup (CryptoTracker.on_chart_fetched [] [] [⟨1, 1, 2, 0, 1⟩] "bitcoin" 7 1).cache
        ("bitcoin", 7, 0) = none := by
  decide

/-- C2 amended: a chart-cache write always carries the coin id and range of
the completed job, but its UTC-date component is recomputed when the fetch
completes (main.py 435); the write key equals the request-time key exactly
when the fetch completes within the same UTC day it was requested. -/
theorem c2_amended_write_key_completion_date (cache : ChartCache) (table : List TableRow)
    (raw : List OhlcRow) (cid : String) (days requestDate completionDate : Nat)
    (hraw : raw ≠ []) :
    cacheLookup (CryptoTracker.on_chart_fetched cache table raw cid days completionDate).cache
        (cid, days, completionDate) = some raw ∧
    (((cid, days, completionDate) : ChartKey) = (cid, days, requestDate)
      ↔ completionDate = requestDate) := by
  refine ⟨by simp [CryptoTracker.on_chart_fetched, hraw, cacheLookup_insert_self], ?_, ?_⟩
  · exact fun h => congrArg (fun k : ChartKey => k.2.2) h
  · exact fun h => by rw [h]

/-- C2 witness: concrete instantiation of `c2_amended_write_key_completion_date`. -/
theorem c2_witness :
    (([⟨1, 1, 2, 0, 1⟩] : List OhlcRow) ≠ []) ∧
    (cacheLookup (CryptoTracker.on_chart_fetched [] [] [⟨1, 1, 2, 0, 1⟩] "bitcoin" 7 1).cache
        ("bitcoin", 7, 1) = some [⟨1, 1, 2, 0, 1⟩] ∧
    ((("bitcoin", 7, 1) : ChartKey) = ("bitcoin", 7, 0) ↔ (1 : Nat) = 0)) :=
  ⟨by decide, c2_amended_write_key_completion_date [] [] [⟨1, 1, 2, 0, 1⟩] "bitcoin" 7 0 1
    (by decide)⟩

/-- C5 counterexample: an out-of-order two-record payload is cached and drawn
exactly as received — the handler performs no sort and no deduplication, so
the stored series is not timestamp-ascending, refuting the claim for this
payload. -/
theorem c5_counterexample_unsorted_payload :
    cacheLookup
        (CryptoTracker.on_chart_fetched [] [] [⟨2, 1, 1, 1, 1⟩, ⟨1, 1, 1, 1, 1⟩]
          "bitcoin" 7 0).cache ("bitcoin", 7, 0)
      = some [⟨2, 1, 1, 1, 1⟩, ⟨1, 1, 1, 1, 1⟩] ∧
    (CryptoTracker.on_chart_fetched [] [] [⟨2, 1, 1, 1, 1⟩, ⟨1, 1, 1, 1, 1⟩]
        "bitcoin" 7 0).drawn
      = some ([⟨2, 1, 1, 1, 1⟩, ⟨1, 1, 1, 1, 1⟩], "bitcoin", 7) ∧
    sortedNoDup [⟨2, 1, 1, 1, 1⟩, ⟨1, 1, 1, 1, 1⟩] = false := by
  decide

/-- C5 amended: for every non-empty payload the completion handler caches and
renders the raw records verbatim, in payload order, with no sorting and no
deduplication — so the stored series is timestamp-ascending without duplicates
exactly when the raw payload already is. -/
theorem c5_amended_payload_order_preserved (cache : ChartCache) (table : List TableRow)
    (raw : List OhlcRow) (cid : String) (days d : Nat) (hraw : raw ≠ []) :
    (CryptoTracker.on_chart_fetched cache table raw cid days d).drawn
      = some (raw, CryptoTracker.resolve_coin_name table cid, days) ∧
    cacheLookup (CryptoTracker.on_chart_fetched cache table raw cid days d).cache
        (cid, days, d) = some raw := by
  constructor
  · simp [CryptoTracker.on_chart_fetched, hraw]
  · simp [CryptoTracker.on_chart_fetched, hraw, cacheLookup_insert_self]

/-- C5 witness: concrete instantiation of `c5_amended_payload_order_preserved`. -/
theorem c5_witness :
    (([⟨2, 1, 1, 1, 1⟩, ⟨1, 1, 1, 1, 1⟩] : List OhlcRow) ≠ []) ∧
    ((CryptoTracker.on_chart_fetched [] [] [⟨2, 1, 1, 1, 1⟩, ⟨1, 1, 1, 1, 1⟩] "eth" 30 5).drawn
      = some ([⟨2, 1, 1, 1, 1⟩, ⟨1, 1, 1, 1, 1⟩], CryptoTracker.resolve_coin_name [] "eth", 30) ∧
    cacheLookup
        (CryptoTracker.on_chart_fetched [] [] [⟨2, 1, 1, 1, 1⟩, ⟨1, 1, 1, 1, 1⟩] "eth" 30 5).cache
        ("eth", 30, 5) = some [⟨2, 1, 1, 1, 1⟩, ⟨1, 1, 1, 1, 1⟩]) :=
  ⟨by decide, c5_amended_payload_order_preserved [] [] [⟨2, 1, 1, 1, 1⟩, ⟨1, 1, 1, 1, 1⟩]
    "eth" 30 5 (by decide)⟩

/-! Helper lemmas for name resolution and the icon loop. -/

theorem resolve_finds_name (it : TableRow) :
    ∀ l : List TableRow, it ∈ l → (l.map TableRow.coin_id).Nodup →
      CryptoTracker.resolve_coin_name l it.coin_id = it.name := by
  intro l
  induction l with
  | nil => intro hmem _; cases hmem
  | cons row rest ih =>
    intro hmem hnd
    rw [List.map_cons] at hnd
    obtain ⟨hhead, htail⟩ := List.nodup_cons.mp hnd
    by_cases h : row.coin_id = it.coin_id
    · have hrowit : row = it := by
        rcases List.mem_cons.mp hmem with heq | hmemrest
        · exact heq.symm
        · exact absurd (h ▸ List.mem_map_of_mem TableRow.coin_id hmemrest) hhead
      simp [CryptoTracker.resolve_coin_name, h, hrowit]
    · have hmemrest : it ∈ rest := by
        rcases List.mem_cons.mp hmem with heq | hm
        · exact absurd (congrArg TableRow.coin_id heq).symm h
        · exact hm
      simp [CryptoTracker.resolve_coin_name, h, ih hmemrest htail]

theorem iconRun_skip (fetch : String → Option (List Nat)) (bad : Coin) (post : List Coin)
    (hfail : bad.image.bind fetch = none) :
    IconFetcher.run fetch (bad :: post) = IconFetcher.run fetch post := by
  by_cases hid : bad.id.isEmpty
  · simp [IconFetcher.run, hid]
  · cases hbi : bad.image with
    | none => simp [IconFetcher.run, hid, hbi]
    | some url =>
      by_cases hurl : url.isEmpty
      · simp [IconFetcher.run, hid, hbi, hurl]
      · have hf : fetch url = none := by
          rw [hbi] at hfail
          simpa using hfail
        simp [IconFetcher.run, hid, hbi, hurl, hf]

theorem iconRun_append (fetch : String → Option (List Nat)) (l1 l2 : List Coin) :
    IconFetcher.run fetch (l1 ++ l2) = IconFetcher.run fetch l1 ++ IconFetcher.run fetch l2 := by
  induction l1 with
  | nil => simp [IconFetcher.run]
  | cons coin rest ih =>
    by_cases hid : coin.id.isEmpty
    · simp [IconFetcher.run, hid, ih]
    · cases hbi : coin.image with
      | none => simp [IconFetcher.run, hid, hbi, ih]
      | some url =>
        by_cases hurl : url.isEmpty
        · simp [IconFetcher.run, hid, hbi, hurl, ih]
        · cases hf : fetch url with
          | none => simp [IconFetcher.run, hid, hbi, hurl, hf, ih]
          | some bytes => simp [IconFetcher.run, hid, hbi, hurl, hf, ih]

/-- C7: with distinct asset ids, for any reordering of the populated table a
click on any row starts the chart fetch for the coin id stored with that
row's item (never an id derived from the index), and the completion
handler's name resolution by that id still returns the name stored with the
same asset — routing survives reordering. -/
theorem c7_routing_by_id_survives_reordering (data : List Coin) (tablePerm : List TableRow)
    (r col days : Nat) (it : TableRow)
    (hperm : (CryptoTracker.populate_table data).Perm tablePerm)
    (hnd : ((CryptoTracker.populate_table data).map TableRow.coin_id).Nodup)
    (hr : tablePerm[r]? = some it) :
    CryptoTracker.on_table_cell_clicked tablePerm r col days
      = some (it.coin_id, it.name, days) ∧
    CryptoTracker.resolve_coin_name tablePerm it.coin_id = it.name := by
  have hmem : it ∈ tablePerm := by
    have := List.getElem?_eq_some.mp hr
    obtain ⟨hlt, hget⟩ := this
    exact hget ▸ List.getElem_mem hlt
  have hnd2 : (tablePerm.map TableRow.coin_id).Nodup :=
    ((hperm.map TableRow.coin_id).nodup_iff).mp hnd
  constructor
  · simp [CryptoTracker.on_table_cell_clicked, hr]
  · exact resolve_finds_name it tablePerm hmem hnd2

/-- C7 witness: concrete instantiation of `c7_routing_by_id_survives_reordering`
on a three-coin snapshot whose first two rows were swapped by a re-sort. -/
theorem c7_witness :
    ((CryptoTracker.populate_table
        [⟨"x-coin", "X Coin", "x", none⟩, ⟨"y-coin", "Y Coin", "y", none⟩,
          ⟨"z-coin", "Z Coin", "z", none⟩]).Perm
      [⟨"y-coin", "Y Coin", "y"⟩, ⟨"x-coin", "X Coin", "x"⟩, ⟨"z-coin", "Z Coin", "z"⟩]) ∧
    (((CryptoTracker.populate_table
        [⟨"x-coin", "X Coin", "x", none⟩, ⟨"y-coin", "Y Coin", "y", none⟩,
          ⟨"z-coin", "Z Coin", "z", none⟩]).map TableRow.coin_id).Nodup) ∧
    (([⟨"y-coin", "Y Coin", "y"⟩, ⟨"x-coin", "X Coin", "x"⟩,
        ⟨"z-coin", "Z Coin", "z"⟩] : List TableRow)[0]? = some ⟨"y-coin", "Y Coin", "y"⟩) ∧
    (CryptoTracker.on_table_cell_clicked
        [⟨"y-coin", "Y Coin", "y"⟩, ⟨"x-coin", "X Coin", "x"⟩, ⟨"z-coin", "Z Coin", "z"⟩] 0 3 7
      = some ("y-coin", "Y Coin", 7) ∧
    CryptoTracker.resolve_coin_name
        [⟨"y-coin", "Y Coin", "y"⟩, ⟨"x-coin", "X Coin", "x"⟩, ⟨"z-coin", "Z Coin", "z"⟩]
        "y-coin" = "Y Coin") := by
  refine ⟨by decide, by decide, by decide, ?_⟩
  exact c7_routing_by_id_survives_reordering
    [⟨"x-coin", "X Coin", "x", none⟩, ⟨"y-coin", "Y Coin", "y", none⟩,
      ⟨"z-coin", "Z Coin", "z", none⟩]
    [⟨"y-coin", "Y Coin", "y"⟩, ⟨"x-coin", "X Coin", "x"⟩, ⟨"z-coin", "Z Coin", "z"⟩]
    0 3 7 ⟨"y-coin", "Y Coin", "y"⟩ (by decide) (by decide) (by decide)

/-- C9: a failing icon fetch for one coin is fully swallowed — the icon loop
emits exactly the emissions of the coins before it followed by those of the
coins after it, so the other coins' icons are all delivered; moreover the
icon-loaded handler never adds a notification and never touches the table or
the chart cache, so icon handling has no effect on the snapshot flow. -/
theorem c9_icon_failure_isolated (fetch : String → Option (List Nat)) (pre post : List Coin)
    (bad : Coin) (s : AppState) (cid : String) (pix : List Nat)
    (hfail : bad.image.bind fetch = none) :
    IconFetcher.run fetch (pre ++ bad :: post)
      = IconFetcher.run fetch pre ++ IconFetcher.run fetch post ∧
    (CryptoTracker.on_icon_loaded s cid pix).notifications = s.notifications ∧
    (CryptoTracker.on_icon_loaded s cid pix).table = s.table ∧
    (CryptoTracker.on_icon_loaded s cid pix).chart_cache = s.chart_cache := by
  refine ⟨?_, ?_, ?_, ?_⟩
  · rw [iconRun_append, iconRun_skip fetch bad post hfail]
  · by_cases h : pix.isEmpty <;> simp [CryptoTracker.on_icon_loaded, h]
  · by_cases h : pix.isEmpty <;> simp [CryptoTracker.on_icon_loaded, h]
  · by_cases h : pix.isEmpty <;> simp [CryptoTracker.on_icon_loaded, h]

/-- C9 witness: concrete instantiation of `c9_icon_failure_isolated` with a
fetch function that fails only for the middle coin's icon URL. -/
theorem c9_witness :
    ((Coin.image ⟨"eth", "Ethereum", "eth", some "bad.png"⟩).bind
        (fun u => if u = "bad.png" then none else some [7]) = none) ∧
    (IconFetcher.run (fun u => if u = "bad.png" then none else some [7])
        ([⟨"btc", "Bitcoin", "btc", some "b.png"⟩] ++
          ⟨"eth", "Ethereum", "eth", some "bad.png"⟩ :: [⟨"sol", "Solana", "sol", some "s.png"⟩])
      = IconFetcher.run (fun u => if u = "bad.png" then none else some [7])
          [⟨"btc", "Bitcoin", "btc", some "b.png"⟩] ++
        IconFetcher.run (fun u => if u = "bad.png" then none else some [7])
          [⟨"sol", "Solana", "sol", some "s.png"⟩] ∧
    (CryptoTracker.on_icon_loaded ⟨[], [], [], "", []⟩ "btc" [7]).notifications = [] ∧
    (CryptoTracker.on_icon_loaded ⟨[], [], [], "", []⟩ "btc" [7]).table = [] ∧
    (CryptoTracker.on_icon_loaded ⟨[], [], [], "", []⟩ "btc" [7]).chart_cache = []) :=
  ⟨by decide, c9_icon_failure_isolated (fun u => if u = "bad.png" then none else some [7])
    [⟨"btc", "Bitcoin", "btc", some "b.png"⟩] [⟨"sol", "Solana", "sol", some "s.png"⟩]
    ⟨"eth", "Ethereum", "eth", some "bad.png"⟩ ⟨[], [], [], "", []⟩ "btc" [7] (by decide)⟩
